import Mathlib

/-!
Shallow embedding of the telemetry analytics and mission-control client in
src/prueba.py: record normalization (adding the local-time column dt),
timezone-aware day bucketing, the day-window metrics block, mission
parameter computation and input validation, and the stop-mission client.

Time is modelled in integer microseconds of local wall-clock time.  The
reference timezone hardcoded in the source, America/Mexico_City, is a fixed
UTC-6 offset (the zone has had no daylight-saving transitions since 2022),
so converting an epoch second to local wall-clock time subtracts 21600
seconds.  Record timestamps (field ts) are integer epoch seconds per the
device schema, and the pandas day boundaries built from datetime.min.time()
and datetime.max.time() are microsecond-precise (23:59:59.999999), so an
integer-microsecond axis represents both exactly.  Absent or NaN values of
a column are modelled as none.
-/

/-- One raw JSON record from GET /log.json, before the dt column is added
(columns ts, lat, lon, alt, drop_id, speed_mps, sats, fix_ok). -/
structure RawRecord where
  ts : Option Int
  lat : Option ℚ
  lon : Option ℚ
  alt : Option ℚ
  drop_id : Option Int
  speed_mps : Option ℚ
  sats : Option Int
  fix_ok : Bool
  deriving DecidableEq

/-- A normalized row of df_all / df_day: the raw columns plus the derived
local timestamp dt (local wall-clock microseconds; none models NaT). -/
structure TelemetryRecord where
  ts : Option Int
  lat : Option ℚ
  lon : Option ℚ
  alt : Option ℚ
  drop_id : Option Int
  speed_mps : Option ℚ
  sats : Option Int
  fix_ok : Bool
  dt : Option Int
  deriving DecidableEq

/-- Fixed offset of America/Mexico_City from UTC, in seconds (UTC-6). -/
def tz_offset_s : Int := -21600

/-- Local wall-clock time in microseconds for an epoch second, as computed by
pd.to_datetime(ts, unit="s", utc=True).dt.tz_convert("America/Mexico_City"). -/
def local_us (s : Int) : Int := (s + tz_offset_s) * 1000000

/-- Adding the dt column to one row (source line 176). -/
def normalizeRecord (r : RawRecord) : TelemetryRecord :=
  { ts := r.ts, lat := r.lat, lon := r.lon, alt := r.alt, drop_id := r.drop_id,
    speed_mps := r.speed_mps, sats := r.sats, fix_ok := r.fix_ok,
    dt := r.ts.map local_us }

/-- Adding the dt column to the whole frame. -/
def normalizeRecords (rs : List RawRecord) : List TelemetryRecord :=
  rs.map normalizeRecord

/-- Microseconds in one local calendar day (America/Mexico_City has no DST,
so every local day spans exactly 86400 seconds). -/
def us_per_day : Int := 86400 * 1000000

/-- Local midnight opening local day d, in local microseconds:
pd.Timestamp.combine(day, datetime.min.time()) localized (source line 177). -/
def day_start (d : Int) : Int := d * us_per_day

/-- End bound used by the source: pd.Timestamp.combine(day,
datetime.max.time()) localized, i.e. 23:59:59.999999 of day d (line 178). -/
def day_end (d : Int) : Int := d * us_per_day + (us_per_day - 1)

/-- The day filter of source line 179:
mask = (df_all["dt"] >= day_start) & (df_all["dt"] <= day_end).
A NaT dt compares false on both sides, as in pandas. -/
def mask (d : Int) (r : TelemetryRecord) : Bool :=
  match r.dt with
  | none => false
  | some t => decide (day_start d ≤ t) && decide (t ≤ day_end d)

/-- df_day = df_all.loc[mask] (source line 180). -/
def df_day (d : Int) (rs : List TelemetryRecord) : List TelemetryRecord :=
  rs.filter (mask d)

/-- Sum of a boolean column, as in df_day["fix_ok"].sum() (source line 191). -/
def bool_sum (bs : List Bool) : Nat :=
  (bs.map (fun b => if b then 1 else 0)).sum

/-- pandas Series.mean over the present (non-NaN) entries of a column;
returns none (NaN) when no entry is present. -/
def mean_opt (xs : List ℚ) : Option ℚ :=
  if xs.isEmpty then none else some (xs.sum / xs.length)

/-- The present (non-NaN) entries of the lat column. -/
def col_lat (rs : List TelemetryRecord) : List ℚ := rs.filterMap (fun r => r.lat)

/-- The present (non-NaN) entries of the lon column. -/
def col_lon (rs : List TelemetryRecord) : List ℚ := rs.filterMap (fun r => r.lon)

/-- The present (non-NaN) entries of the speed_mps column. -/
def col_speed (rs : List TelemetryRecord) : List ℚ :=
  rs.filterMap (fun r => r.speed_mps)

/-- Source line 201: lat0 = float(df_day["lat"].mean()) if
df_day["lat"].notna().any() else 0.0 — numeric 0.0 fallback. -/
def lat0 (rs : List TelemetryRecord) : ℚ := (mean_opt (col_lat rs)).getD 0

/-- Source line 202: lon0 with the same 0.0 fallback. -/
def lon0 (rs : List TelemetryRecord) : ℚ := (mean_opt (col_lon rs)).getD 0

/-- The metrics the stats block derives from df_day (source lines 188-202);
none models an absent display ("—" or a skipped map block). -/
structure DayAggregate where
  total_rows : Nat
  valid_fix_rows : Nat
  avg_speed : Option ℚ
  mean_lat : Option ℚ
  mean_lon : Option ℚ
  deriving DecidableEq

/-- The stats/metrics block evaluated on df_day: row count (line 189),
valid GPS rows (line 191, 0 when the frame is empty), average speed
(lines 193-196, "—" when empty), and the map-center coordinates
(lines 198-202, computed only when the frame is nonempty). -/
def aggregate (rs : List TelemetryRecord) : DayAggregate :=
  { total_rows := rs.length,
    valid_fix_rows := bool_sum (rs.map (fun r => r.fix_ok)),
    avg_speed := if rs.isEmpty then none else mean_opt (col_speed rs),
    mean_lat := if rs.isEmpty then none else some (lat0 rs),
    mean_lon := if rs.isEmpty then none else some (lon0 rs) }

/-- computed_interval = distance / velocity (source line 133). -/
def computed_interval (velocity distance : ℚ) : ℚ := distance / velocity

/-- The JSON body sent to POST /start (source lines 35-36). -/
structure MissionRequest where
  interval_s : ℚ
  delay_s : ℚ
  step_hz : Int
  deriving DecidableEq

/-- The bounds the four st.number_input widgets enforce on the start form
(source lines 128-131): velocity in [0.1, 100], distance in [0.1, 1000],
delay in [0, 120], step_hz in [1, 50000].  No value outside these bounds
can be submitted. -/
def widget_ok (velocity distance delay_s : ℚ) (step_hz : Int) : Prop :=
  (1 / 10 ≤ velocity ∧ velocity ≤ 100) ∧ (1 / 10 ≤ distance ∧ distance ≤ 1000) ∧
    (0 ≤ delay_s ∧ delay_s ≤ 120) ∧ (1 ≤ step_hz ∧ step_hz ≤ 50000)

instance (v d dl : ℚ) (hz : Int) : Decidable (widget_ok v d dl hz) := by
  unfold widget_ok
  infer_instance

/-- The start form flow (source lines 127-139): values pass the widget
bounds, then the request body is built from computed_interval, delay and
step_hz; out-of-bounds values never produce a request. -/
def start_form (velocity distance delay_s : ℚ) (step_hz : Int) : Option MissionRequest :=
  if widget_ok velocity distance delay_s step_hz then
    some { interval_s := computed_interval velocity distance,
           delay_s := delay_s, step_hz := step_hz }
  else none

/-- Outcome of one HTTP round trip as the client sees it before
raise_for_status: a 2xx ack payload or an error status. -/
inductive HttpResult where
  | ok (payload : String)
  | err (code : Nat)
  deriving DecidableEq

/-- What the stop handler surfaces to the user (source lines 146-151):
st.success with the ack, or st.error from the raised exception. -/
inductive CallOutcome where
  | success (payload : String)
  | failure (code : Nat)
  deriving DecidableEq

/-- stop_mission (source lines 41-44): posts /stop, raise_for_status, and
returns the ack; it reads and writes no client-side state. -/
def stop_mission (r : HttpResult) : CallOutcome :=
  match r with
  | .ok p => .success p
  | .err c => .failure c

/-- Device-side mission states named by the spec state machine. -/
inductive DeviceState where
  | idle
  | armed
  | running
  | fault
  deriving DecidableEq

/-- Modelled from the spec: the device firmware (not in this repository)
answers POST /stop with a success acknowledgment in every state — stopping
an already-stopped mission is not an error — and is idle afterwards. -/
def device_stop : DeviceState → HttpResult × DeviceState :=
  fun _ => (.ok "stopped", .idle)

/-- Two consecutive presses of the Stop button: each press performs one
fresh stop_mission round trip; no client state carries over between them. -/
def stop_twice (s : DeviceState) : CallOutcome × CallOutcome :=
  ((stop_mission (device_stop s).1), stop_mission (device_stop (device_stop s).2).1)

/-- The two client outcomes as a function of the two device responses only
(the client keeps no state between calls). -/
def client_stop_pair (r1 r2 : HttpResult) : CallOutcome × CallOutcome :=
  (stop_mission r1, stop_mission r2)

/-- Column schema of the empty frame built when data is empty
(source line 173). -/
def schema_cols : List String :=
  ["ts", "lat", "lon", "alt", "drop_id", "speed_mps", "sats", "fix_ok"]

/-- Column schema of the empty fallback frame built in the except branch
(source line 184), which also carries the dt column. -/
def schema_cols_dt : List String := schema_cols ++ ["dt"]

/-- A DataFrame: its column schema and its rows. -/
structure Frame where
  cols : List String
  rows : List TelemetryRecord
  deriving DecidableEq

/-- The daily-view pipeline (source lines 171-185): fetch, normalize and
day-filter; on any exception substitute an empty frame with the fixed
schema and report a warning (second component). -/
def daily_view (fetched : Except String (List RawRecord)) (d : Int) :
    Frame × Option String :=
  match fetched with
  | .error e => ({ cols := schema_cols_dt, rows := [] }, some e)
  | .ok [] => ({ cols := schema_cols, rows := [] }, none)
  | .ok (r :: rest) =>
      ({ cols := schema_cols_dt, rows := df_day d (normalizeRecords (r :: rest)) }, none)

/-- A raw record with every optional column absent, timestamped at UTC
06:00:00 of 1970-01-01, i.e. exactly local midnight of local day 0. -/
def raw_midnight : RawRecord :=
  { ts := some 21600, lat := none, lon := none, alt := none, drop_id := none,
    speed_mps := none, sats := none, fix_ok := false }

/-- The same record one second earlier: 23:59:59 local of the previous day. -/
def raw_before_midnight : RawRecord := { raw_midnight with ts := some 21599 }

/-- A raw record with a negative epoch timestamp. -/
def raw_negative_ts : RawRecord := { raw_midnight with ts := some (-5) }

/-- A normalized record carrying no coordinates at all. -/
def record_no_coords : TelemetryRecord := normalizeRecord raw_midnight

/-- C1: day-window membership is a half-open local-calendar-day interval —
a normalized record with local time t lies in df_day for day d iff
day_start d ≤ t < day_start (d+1); in particular the record timestamped at
local midnight belongs to that day and the record one second before local
midnight belongs to the previous day. -/
theorem mask_halfOpen_day (r : TelemetryRecord) (t d : Int) (h : r.dt = some t) :
    (mask d r = true ↔ (day_start d ≤ t ∧ t < day_start (d + 1)))
    ∧ mask 0 (normalizeRecord raw_midnight) = true
    ∧ mask 0 (normalizeRecord raw_before_midnight) = false
    ∧ mask (-1) (normalizeRecord raw_before_midnight) = true := by
  refine ⟨?_, by decide, by decide, by decide⟩
  simp only [mask, h, Bool.and_eq_true, decide_eq_true_eq, day_start, day_end, us_per_day]
  omega

/-- Witness for C1 at the concrete record timestamped at local midnight. -/
theorem mask_halfOpen_day_witness :
    (normalizeRecord raw_midnight).dt = some 0
    ∧ ((mask 0 (normalizeRecord raw_midnight) = true ↔
          (day_start 0 ≤ 0 ∧ (0 : Int) < day_start (0 + 1)))
       ∧ mask 0 (normalizeRecord raw_midnight) = true
       ∧ mask 0 (normalizeRecord raw_before_midnight) = false
       ∧ mask (-1) (normalizeRecord raw_before_midnight) = true) :=
  ⟨by decide, mask_halfOpen_day (normalizeRecord raw_midnight) 0 0 (by decide)⟩

/-- C2: for velocity > 0 and distance > 0, computed_interval equals
distance / velocity exactly and is positive; at velocity = 10,
distance = 30 it equals 3.0 seconds. -/
theorem computed_interval_spec (velocity distance : ℚ)
    (hv : 0 < velocity) (hd : 0 < distance) :
    computed_interval velocity distance = distance / velocity
    ∧ 0 < computed_interval velocity distance
    ∧ computed_interval 10 30 = 3 := by
  refine ⟨rfl, ?_, by norm_num [computed_interval]⟩
  exact div_pos hd hv

/-- Witness for C2 at velocity = 10, distance = 30. -/
theorem computed_interval_spec_witness :
    0 < (10 : ℚ) ∧ 0 < (30 : ℚ)
    ∧ (computed_interval 10 30 = 30 / 10
       ∧ 0 < computed_interval 10 30
       ∧ computed_interval 10 30 = 3) :=
  ⟨by norm_num, by norm_num, computed_interval_spec 10 30 (by norm_num) (by norm_num)⟩

/-- C3: the daily view of an empty record sequence has no rows, and the
stats block on it yields zero total and valid-fix counts and absent
average speed and mean coordinates; every function involved is total, so
no fault can be raised. -/
theorem aggregate_empty_day (d : Int) :
    (daily_view (.ok []) d).1.rows = []
    ∧ aggregate (daily_view (.ok []) d).1.rows =
        { total_rows := 0, valid_fix_rows := 0, avg_speed := none,
          mean_lat := none, mean_lon := none } := by
  constructor <;> rfl

/-- C4: valid_fix_rows is exactly the number of records whose fix_ok is
true, and any record — in particular one with fix_ok = false — still adds
one to total_rows. -/
theorem aggregate_fix_counts (rs : List TelemetryRecord) (r : TelemetryRecord) :
    (aggregate rs).valid_fix_rows = rs.countP (fun x => x.fix_ok)
    ∧ (aggregate (r :: rs)).total_rows = (aggregate rs).total_rows + 1 := by
  refine ⟨?_, rfl⟩
  induction rs with
  | nil => rfl
  | cons a l ih =>
      simp only [aggregate, bool_sum, List.map_cons, List.sum_cons,
        List.countP_cons] at ih ⊢
      omega

/-- C5 counterexample: on a nonempty day window in which no record carries a
present coordinate, the stats block yields the numeric coordinates (0, 0)
— lat0 and lon0 fall back to 0.0 — not an absent sentinel. -/
theorem mean_coords_zero_fallback :
    (aggregate [record_no_coords]).mean_lat = some 0
    ∧ (aggregate [record_no_coords]).mean_lon = some 0
    ∧ lat0 [record_no_coords] = 0
    ∧ lon0 [record_no_coords] = 0 := by
  refine ⟨rfl, rfl, rfl, rfl⟩

/-- C5 (amended): mean_lat and mean_lon are computed over records with
present, non-NaN coordinates only — a record with an absent coordinate
never affects them — but when no record in the (nonempty) day window has a
present coordinate the code falls back to the numeric value 0.0 for that
coordinate, not to an absent sentinel. -/
theorem mean_coords_present_only (r : TelemetryRecord) (rs : List TelemetryRecord)
    (hlat : r.lat = none) (hlon : r.lon = none) :
    lat0 (r :: rs) = lat0 rs
    ∧ lon0 (r :: rs) = lon0 rs
    ∧ ((∀ x ∈ rs, x.lat = none) → lat0 rs = 0)
    ∧ ((∀ x ∈ rs, x.lon = none) → lon0 rs = 0) := by
  refine ⟨?_, ?_, ?_, ?_⟩
  · simp [lat0, col_lat, List.filterMap_cons, hlat]
  · simp [lon0, col_lon, List.filterMap_cons, hlon]
  · intro hall
    have hnil : col_lat rs = [] := by
      simp [col_lat, List.filterMap_eq_nil_iff]
      exact hall
    simp [lat0, hnil, mean_opt]
  · intro hall
    have hnil : col_lon rs = [] := by
      simp [col_lon, List.filterMap_eq_nil_iff]
      exact hall
    simp [lon0, hnil, mean_opt]

/-- Witness for the amended C5 at the concrete coordinate-free record. -/
theorem mean_coords_present_only_witness :
    record_no_coords.lat = none ∧ record_no_coords.lon = none
    ∧ (lat0 [record_no_coords] = lat0 []
       ∧ lon0 [record_no_coords] = lon0 []
       ∧ ((∀ x ∈ ([] : List TelemetryRecord), x.lat = none) → lat0 [] = 0)
       ∧ ((∀ x ∈ ([] : List TelemetryRecord), x.lon = none) → lon0 [] = 0)) :=
  ⟨rfl, rfl, mean_coords_present_only record_no_coords [] rfl rfl⟩

/-- C6 counterexample: a raw record whose timestamp_epoch_s is negative is
not dropped by normalization — it stays in the output with a pre-1970
local timestamp — and no dropped-record count exists anywhere in the
pipeline. -/
theorem negative_ts_not_dropped :
    (normalizeRecords [raw_negative_ts]).length = 1
    ∧ normalizeRecords [raw_negative_ts] = [normalizeRecord raw_negative_ts]
    ∧ (normalizeRecord raw_negative_ts).dt = some (-21605000000) := by
  refine ⟨rfl, rfl, by decide⟩

/-- C6 (amended): normalization drops nothing: every raw record, including
those with a missing or negative timestamp_epoch_s, appears in the output
sequence (a missing timestamp becomes dt = none, a negative one a pre-1970
local time), so there is no dropped-record count to report. -/
theorem normalize_preserves_all (raws : List RawRecord) :
    (normalizeRecords raws).length = raws.length
    ∧ normalizeRecords raws = raws.map normalizeRecord := by
  refine ⟨?_, rfl⟩
  simp [normalizeRecords]

/-- C7: day filtering is idempotent — filtering an already-filtered day
window with the same day returns it unchanged. -/
theorem df_day_idempotent (d : Int) (rs : List TelemetryRecord) :
    df_day d (df_day d rs) = df_day d rs := by
  simp [df_day, List.filter_filter]

/-- C8: the start form validates all four inputs before any request is
built — any input outside the spec bounds (velocity in (0,100], distance
in (0,1000], delay in [0,120], step_hz in [1,50000]) fails the widget
bounds, so no MissionRequest is produced and nothing is sent to the
device. -/
theorem start_form_rejects (velocity distance delay_s : ℚ) (step_hz : Int)
    (h : ¬ (0 < velocity ∧ velocity ≤ 100) ∨ ¬ (0 < distance ∧ distance ≤ 1000)
       ∨ ¬ (0 ≤ delay_s ∧ delay_s ≤ 120) ∨ ¬ (1 ≤ step_hz ∧ step_hz ≤ 50000)) :
    start_form velocity distance delay_s step_hz = none := by
  unfold start_form
  by_cases hw : widget_ok velocity distance delay_s step_hz
  · exfalso
    unfold widget_ok at hw
    obtain ⟨⟨hv1, hv2⟩, ⟨hd1, hd2⟩, hdl, hhz⟩ := hw
    rcases h with h | h | h | h
    · exact h ⟨lt_of_lt_of_le (show (0 : ℚ) < 1 / 10 by norm_num) hv1, hv2⟩
    · exact h ⟨lt_of_lt_of_le (show (0 : ℚ) < 1 / 10 by norm_num) hd1, hd2⟩
    · exact h hdl
    · exact h hhz
  · simp [hw]

/-- Witness for C8 at the out-of-bounds input velocity = -1. -/
theorem start_form_rejects_witness :
    (¬ (0 < (-1 : ℚ) ∧ (-1 : ℚ) ≤ 100) ∨ ¬ (0 < (30 : ℚ) ∧ (30 : ℚ) ≤ 1000)
       ∨ ¬ (0 ≤ (10 : ℚ) ∧ (10 : ℚ) ≤ 120) ∨ ¬ (1 ≤ (200 : Int) ∧ (200 : Int) ≤ 50000))
    ∧ start_form (-1) 30 10 200 = none :=
  ⟨Or.inl (fun hc => absurd hc.1 (by norm_num)),
   start_form_rejects (-1) 30 10 200 (Or.inl (fun hc => absurd hc.1 (by norm_num)))⟩

/-- C9: two consecutive stop presses both surface a success acknowledgment
from whatever state the device started in; the client keeps no state
between the calls — the outcome of the second call depends only on the
device's second response — and each call surfaces the device's ack
payload verbatim. -/
theorem stop_twice_success (s : DeviceState) (r1 r1' r2 : HttpResult) (p : String) :
    stop_twice s = (CallOutcome.success "stopped", CallOutcome.success "stopped")
    ∧ (client_stop_pair r1 r2).2 = (client_stop_pair r1' r2).2
    ∧ stop_mission (HttpResult.ok p) = CallOutcome.success p := by
  exact ⟨rfl, rfl, rfl⟩

/-- C10: when fetching or parsing the daily-view records fails with any
exception, the pipeline substitutes an empty frame with the fixed column
schema ts, lat, lon, alt, drop_id, speed_mps, sats, fix_ok, dt and reports
a warning, and the stats block on it evaluates to zero counts and absent
means instead of propagating the exception. -/
theorem daily_view_error_fallback (e : String) (d : Int) :
    (daily_view (.error e) d).1.cols =
      ["ts", "lat", "lon", "alt", "drop_id", "speed_mps", "sats", "fix_ok", "dt"]
    ∧ (daily_view (.error e) d).1.rows = []
    ∧ (daily_view (.error e) d).2 = some e
    ∧ aggregate (daily_view (.error e) d).1.rows =
        { total_rows := 0, valid_fix_rows := 0, avg_speed := none,
          mean_lat := none, mean_lon := none } := by
  exact ⟨rfl, rfl, rfl, rfl⟩
